import Mathlib

/-!
# Verification of the email-productivity-agent frontend core

This development embeds the client of `src/frontend/src/services/api.js`
and the UI state machine of `src/frontend/src/App.jsx` as Lean
definitions, and proves properties of the spec about them.  The Flask
backend of the repository is not part of the source tree; where a
property is decided by backend behaviour, the corresponding definition is
modelled from the spec and marked as such in its doc comment.
-/

namespace EmailAgent

/-- An extracted action item attached to an email (task plus optional
free-text deadline), as rendered by `App.jsx`. -/
structure ActionItem where
  task : String
  deadline : Option String
deriving Repr, DecidableEq

/-- A normalized email record as consumed by the frontend: sender,
subject, body, timestamp, and the optional annotations (category,
action items) written by the annotation pipeline. -/
structure Email where
  id : Nat
  «from» : String
  subject : String
  body : String
  timestamp : String
  category : Option String := none
  actionItems : Option (List ActionItem) := none
deriving Repr, DecidableEq

/-- One chat turn, `{ role, content }`, as kept in the `chatMessages`
React state of `App.jsx`. -/
structure ChatMessage where
  role : String
  content : String
deriving Repr, DecidableEq

/-- A generated draft record as rendered in the Drafts tab. -/
structure Draft where
  id : Nat
  «to» : String
  subject : String
  body : String
  createdAt : String
deriving Repr, DecidableEq

/-- The status banner state set by `showStatus(message, type)`. -/
structure Status where
  message : String
  type : String
deriving Repr, DecidableEq

/-- The React state of the `App` component (`useState` hooks at the top
of `App.jsx`). -/
structure AppState where
  emails : List Email
  selectedEmail : Option Email
  prompts : List (String × String)
  chatMessages : List ChatMessage
  chatInput : String
  drafts : List Draft
  activeTab : String
  loading : Bool
  editingPrompt : Option String
  status : Status
deriving Repr, DecidableEq

/-- The requests constructible through the API client
(`src/frontend/src/services/api.js`): one constructor per exported
function, carrying exactly the data that function sends. -/
inductive ApiRequest where
  | loadMockEmails
  | fetchEmails (maxResults : Nat)
  | processEmails
  | getEmails
  | chatWithAgent (email : Email) (query : String) (history : String)
  | generateDraft (email : Email)
  | getDrafts
  | deleteDraft (draftId : Nat)
  | getPrompts
  | updatePrompts (prompts : List (String × String))
deriving Repr, DecidableEq

/-- HTTP method used by each API-client function (`api.post`, `api.get`,
`api.delete`, `api.put` in `api.js`). -/
def httpMethod : ApiRequest → String
  | .loadMockEmails => "POST"
  | .fetchEmails _ => "GET"
  | .processEmails => "POST"
  | .getEmails => "GET"
  | .chatWithAgent _ _ _ => "POST"
  | .generateDraft _ => "POST"
  | .getDrafts => "GET"
  | .deleteDraft _ => "DELETE"
  | .getPrompts => "GET"
  | .updatePrompts _ => "PUT"

/-- URL path (relative to the axios `baseURL`) of each API-client
function, exactly as built in `api.js`. -/
def httpPath : ApiRequest → String
  | .loadMockEmails => "/emails/load-mock"
  | .fetchEmails n => "/emails/fetch?max_results=" ++ toString n
  | .processEmails => "/emails/process"
  | .getEmails => "/emails"
  | .chatWithAgent _ _ _ => "/chat"
  | .generateDraft _ => "/draft/generate"
  | .getDrafts => "/drafts"
  | .deleteDraft i => "/drafts/" ++ toString i
  | .getPrompts => "/prompts"
  | .updatePrompts _ => "/prompts"

/-- The backend capability a client request invokes, following the
boundary contracts listed in spec section 6.  `transmitEmail` is the
capability that sending an email would require; the classification
records which of the spec's boundary operations each endpoint of
`api.js` reaches. -/
inductive Capability where
  | ingestEmails
  | listEmails
  | runAnnotationPipeline
  | respondToChat
  | generateDraft
  | listDrafts
  | deleteDraft
  | getPrompts
  | updatePrompts
  | transmitEmail
deriving Repr, DecidableEq

/-- Capability classification of each API-client request: the mock-load
and Gmail-fetch endpoints ingest emails, `/emails/process` runs the
annotation pipeline, `/chat` answers a chat turn, and the draft and
prompt endpoints create/list/delete drafts and read/update prompts. -/
def capability : ApiRequest → Capability
  | .loadMockEmails => .ingestEmails
  | .fetchEmails _ => .ingestEmails
  | .processEmails => .runAnnotationPipeline
  | .getEmails => .listEmails
  | .chatWithAgent _ _ _ => .respondToChat
  | .generateDraft _ => .generateDraft
  | .getDrafts => .listDrafts
  | .deleteDraft _ => .deleteDraft
  | .getPrompts => .getPrompts
  | .updatePrompts _ => .updatePrompts

/-- Character-level prefix test used to recognise draft-related URLs. -/
def strStarts (p s : String) : Bool :=
  List.isPrefixOf p.toList s.toList

/-- A request is draft-related when its URL path lives under `/draft`. -/
def isDraftEndpoint (r : ApiRequest) : Bool :=
  strStarts "/draft" (httpPath r)

/-- The outcome of the awaited `api.chatWithAgent` promise seen by
`handleChatSubmit`: a response body text, or a rejection. -/
inductive ChatOutcome where
  | ok (text : String)
  | err
deriving Repr, DecidableEq

/-- Outcome of the `api.processEmails` call in `processAllEmails`: the
`{processed, total}` counts of the response plus the refreshed email
list fetched by the subsequent `loadEmails()`, or a rejection with an
error message. -/
inductive ProcessOutcome where
  | ok (processed total : Nat) (refreshed : List Email)
  | err (msg : String)
deriving Repr, DecidableEq

/-- Outcome of `api.loadMockEmails` in `loadMockInbox`. -/
inductive LoadOutcome where
  | ok (message : Option String) (refreshed : List Email)
  | err (msg : String)
deriving Repr, DecidableEq

/-- Outcome of `api.fetchEmails` in `fetchNewEmails`. -/
inductive FetchOutcome where
  | ok (refreshed : List Email)
  | err
deriving Repr, DecidableEq

/-- Outcome of `api.generateDraft` in `generateDraft`, with the drafts
refreshed by `loadDrafts()` on success. -/
inductive DraftGenOutcome where
  | ok (refreshed : List Draft)
  | err (msg : String)
deriving Repr, DecidableEq

/-- Outcome of `api.updatePrompts` in `savePrompts`. -/
inductive SaveOutcome where
  | ok
  | err (msg : String)
deriving Repr, DecidableEq

/-- The user/network events the `App` component reacts to, one per event
handler in `App.jsx`; network responses appear as outcome parameters so
that a handler's effect is a pure function of state and event. -/
inductive Event where
  | mount (prompts : List (String × String)) (emails : List Email) (drafts : List Draft)
  | selectEmail (e : Email)
  | setChatInput (text : String)
  | chatSubmit (outcome : ChatOutcome)
  | setActiveTab (tab : String)
  | loadMockInbox (outcome : LoadOutcome)
  | fetchGmail (outcome : FetchOutcome)
  | processAll (outcome : ProcessOutcome)
  | generateDraftClick (e : Email) (outcome : DraftGenOutcome)
  | deleteDraftClick (draftId : Nat) (refreshed : List Draft)
  | savePromptsClick (outcome : SaveOutcome)
  | editPrompt (key : String)
  | setPromptText (key : String) (text : String)
deriving Repr, DecidableEq

/-- JavaScript `String.prototype.trim`: drop whitespace from both
ends.  (Written over character lists so that it is structurally
recursive and evaluates inside the kernel.) -/
def jsTrim (s : String) : String :=
  ⟨((s.toList.dropWhile Char.isWhitespace).reverse.dropWhile Char.isWhitespace).reverse⟩

/-- JavaScript `String.prototype.toLowerCase` on the ASCII range. -/
def jsToLower (s : String) : String :=
  ⟨s.toList.map Char.toLower⟩

/-- `showStatus` builds a status record (the five-second auto-clear is a
timer, collapsed here to the status the handler leaves behind). -/
def mkStatus (message type : String) : Status :=
  { message := message, type := type }

/-- The flattening of the prior transcript performed in
`handleChatSubmit`:
`chatMessages.map(m => role + ": " + content).join('\n')`. -/
def flattenHistory (ms : List ChatMessage) : String :=
  String.intercalate "\n" (ms.map fun m => m.role ++ ": " ++ m.content)

/-- The fixed fallback content appended on a failed chat call in
`handleChatSubmit`. -/
def chatFallback : String :=
  "Sorry, I encountered an error processing your request."

/-- The JS spread `{...prompts, [key]: value}` on the prompts object:
replace the binding of `key` if present, append it otherwise. -/
def setPromptEntry (ps : List (String × String)) (key text : String) : List (String × String) :=
  if ps.any (fun p => p.1 = key) then
    ps.map fun p => if p.1 = key then (key, text) else p
  else
    ps ++ [(key, text)]

/-- One step of the `App` component: the state after the event's handler
has run to completion, together with the API requests the handler
issued, translated handler-by-handler from `App.jsx`. -/
def step (s : AppState) : Event → AppState × List ApiRequest
  | .mount prompts emails drafts =>
      ({ s with prompts := prompts, emails := emails, drafts := drafts },
       [ApiRequest.getPrompts, ApiRequest.getEmails, ApiRequest.getDrafts])
  | .selectEmail e =>
      ({ s with selectedEmail := some e, chatMessages := [] }, [])
  | .setChatInput text =>
      ({ s with chatInput := text }, [])
  | .chatSubmit outcome =>
      if jsTrim s.chatInput = "" then (s, [])
      else
        match s.selectedEmail with
        | none => (s, [])
        | some e =>
            let userMessage : ChatMessage := { role := "user", content := s.chatInput }
            let req := ApiRequest.chatWithAgent e s.chatInput (flattenHistory s.chatMessages)
            match outcome with
            | .ok text =>
                ({ s with
                    chatMessages :=
                      s.chatMessages ++ [userMessage, { role := "assistant", content := text }],
                    chatInput := "",
                    loading := false }, [req])
            | .err =>
                ({ s with
                    chatMessages :=
                      s.chatMessages ++ [userMessage, { role := "assistant", content := chatFallback }],
                    chatInput := "",
                    loading := false }, [req])
  | .setActiveTab tab =>
      ({ s with activeTab := tab }, [])
  | .loadMockInbox outcome =>
      match outcome with
      | .ok message refreshed =>
          ({ s with
              emails := refreshed,
              loading := false,
              status := mkStatus ("✅ " ++ message.getD "Mock inbox loaded successfully!") "success" },
           [ApiRequest.loadMockEmails, ApiRequest.getEmails])
      | .err msg =>
          ({ s with
              loading := false,
              status := mkStatus ("❌ Error loading mock inbox: " ++ msg) "error" },
           [ApiRequest.loadMockEmails])
  | .fetchGmail outcome =>
      match outcome with
      | .ok refreshed =>
          ({ s with
              emails := refreshed,
              loading := false,
              status := mkStatus "✅ Emails fetched successfully from Gmail!" "success" },
           [ApiRequest.fetchEmails 20, ApiRequest.getEmails])
      | .err =>
          ({ s with
              loading := false,
              status := mkStatus
                "Gmail not configured. Please use \"Load Mock Inbox\" or set up Gmail credentials."
                "error" },
           [ApiRequest.fetchEmails 20])
  | .processAll outcome =>
      match outcome with
      | .ok processed total refreshed =>
          ({ s with
              emails := refreshed,
              loading := false,
              status := mkStatus
                ("✅ Processed " ++ toString processed ++ "/" ++ toString total ++
                 " emails successfully!") "success" },
           [ApiRequest.processEmails, ApiRequest.getEmails])
      | .err msg =>
          ({ s with
              loading := false,
              status := mkStatus ("❌ Error: " ++ msg) "error" },
           [ApiRequest.processEmails])
  | .generateDraftClick e outcome =>
      match outcome with
      | .ok refreshed =>
          ({ s with
              drafts := refreshed,
              activeTab := "drafts",
              loading := false,
              status := mkStatus "✅ Draft generated successfully! Check Drafts tab." "success" },
           [ApiRequest.generateDraft e, ApiRequest.getDrafts])
      | .err msg =>
          ({ s with
              loading := false,
              status := mkStatus ("❌ Error generating draft: " ++ msg) "error" },
           [ApiRequest.generateDraft e])
  | .deleteDraftClick draftId refreshed =>
      ({ s with drafts := refreshed },
       [ApiRequest.deleteDraft draftId, ApiRequest.getDrafts])
  | .savePromptsClick outcome =>
      match outcome with
      | .ok =>
          ({ s with
              editingPrompt := none,
              loading := false,
              status := mkStatus "✅ Prompts saved! Process emails again to see changes." "success" },
           [ApiRequest.updatePrompts s.prompts])
      | .err msg =>
          ({ s with
              loading := false,
              status := mkStatus ("❌ Error saving prompts: " ++ msg) "error" },
           [ApiRequest.updatePrompts s.prompts])
  | .editPrompt key =>
      ({ s with editingPrompt := some key }, [])
  | .setPromptText key text =>
      ({ s with prompts := setPromptEntry s.prompts key text }, [])

/-- The `disabled` condition of the chat Send button:
`loading || !chatInput.trim()`. -/
def sendButtonDisabled (s : AppState) : Bool :=
  s.loading || jsTrim s.chatInput == ""

/-! ## Category badge (inbox list of `App.jsx`) -/

/-- JavaScript `String.prototype.includes`: substring containment. -/
def jsIncludes (s pat : String) : Bool :=
  decide (pat.toList <:+: s.toList)

/-- The visual buckets the inbox badge can colour a category with. -/
inductive Bucket where
  | important
  | todo
  | newsletter
  | spam
  | other
deriving Repr, DecidableEq

/-- The badge-colour selection of the inbox list, translated from the
nested conditional on `email.category.toLowerCase().includes(...)` in
`App.jsx`. -/
def categoryBucket (c : String) : Bucket :=
  if jsIncludes (jsToLower c) "important" then .important
  else if jsIncludes (jsToLower c) "to-do" || jsIncludes (jsToLower c) "todo" then .todo
  else if jsIncludes (jsToLower c) "newsletter" then .newsletter
  else if jsIncludes (jsToLower c) "spam" then .spam
  else .other

/-- The ordered case-insensitive substring rules the spec describes for
visual bucketing, written as a first-match rule table (spec's words, to
be compared against `categoryBucket`). -/
def bucketRules : List (String × Bucket) :=
  [("important", .important), ("to-do", .todo), ("todo", .todo),
   ("newsletter", .newsletter), ("spam", .spam)]

/-- Spec-side bucketing: the first rule whose substring occurs in the
lower-cased category wins; no rule matching yields `other`. -/
def categoryBucketSpec (c : String) : Bucket :=
  ((bucketRules.find? fun p => jsIncludes (jsToLower c) p.1).map Prod.snd).getD .other

/-- The category badge of one inbox row: `App.jsx` renders it only when
`email.category` is truthy (present and non-empty), and then shows the
raw category string with the bucket's colour class. -/
def categoryBadge (e : Email) : Option (String × Bucket) :=
  match e.category with
  | none => none
  | some c => if c = "" then none else some (c, categoryBucket c)

/-! ## The axios client configuration and interceptor (`api.js`) -/

/-- The configuration passed to `axios.create` in `api.js`. -/
structure AxiosConfig where
  baseURL : String
  contentType : String
  timeout : Nat
deriving Repr, DecidableEq

/-- `API_BASE` in `api.js`: localhost in development, otherwise the
`VITE_API_URL` environment value with an onrender fallback. -/
def apiBase (isDevelopment : Bool) (viteApiUrl : Option String) : String :=
  if isDevelopment then "http://localhost:5001/api"
  else viteApiUrl.getD "https://email-productivity-agent-z0qd.onrender.com/api"

/-- The axios instance configuration: JSON content type and a 60000 ms
timeout for every request made through the instance. -/
def apiClientConfig (isDevelopment : Bool) (viteApiUrl : Option String) : AxiosConfig :=
  { baseURL := apiBase isDevelopment viteApiUrl
    contentType := "application/json"
    timeout := 60000 }

/-- Each exported API function issues its request through the shared
`api` instance, so the request's effective configuration is the
instance's. -/
def requestConfigOf (isDevelopment : Bool) (viteApiUrl : Option String)
    (_ : ApiRequest) : AxiosConfig :=
  apiClientConfig isDevelopment viteApiUrl

/-- An axios rejection value: an optional error code (axios sets
`ECONNABORTED` on timeout) and a message. -/
structure ApiError where
  code : Option String
  message : String
deriving Repr, DecidableEq

/-- The response error interceptor of `api.js`: logs the error, logs an
extra timeout diagnostic when the code is `ECONNABORTED`, and returns
`Promise.reject(error)` — the pair collects the console logs and the
settled outcome handed to the caller. -/
def responseErrorInterceptor (e : ApiError) : List String × Except ApiError Unit :=
  (["API Error: " ++ e.message] ++
     (if e.code = some "ECONNABORTED" then ["Request timeout - backend may be processing"] else []),
   Except.error e)

/-! ## Prompt Store (modelled from the spec) -/

/-- Modelled from the spec: the backend Prompt Store
(`backend/database.py` and the `PUT /api/prompts` route) is not under
`src/`; this is the four-key prompt mapping of spec section 3. -/
structure PromptSet where
  categorize : String
  extractActions : String
  draftReply : String
  chat : String
deriving Repr, DecidableEq

/-- Modelled from the spec: the `ValidationError` of spec section 7,
raised for a bad prompt key or value. -/
inductive ValidationError where
  | unrecognizedKey (key : String)
  | emptyValue (key : String)
deriving Repr, DecidableEq

/-- The four recognized prompt keys (spec section 3). -/
def promptKeys : List String :=
  ["categorize", "extractActions", "draftReply", "chat"]

/-- Read one key of a prompt set; unrecognized keys have no value. -/
def getKey (ps : PromptSet) (k : String) : Option String :=
  if k = "categorize" then some ps.categorize
  else if k = "extractActions" then some ps.extractActions
  else if k = "draftReply" then some ps.draftReply
  else if k = "chat" then some ps.chat
  else none

/-- Write one key of a prompt set; an unrecognized key writes nothing. -/
def setKey (ps : PromptSet) (k v : String) : PromptSet :=
  if k = "categorize" then { ps with categorize := v }
  else if k = "extractActions" then { ps with extractActions := v }
  else if k = "draftReply" then { ps with draftReply := v }
  else if k = "chat" then { ps with chat := v }
  else ps

/-- Modelled from the spec: validation of one supplied update entry —
the key must be recognized and the value non-empty after trimming
(spec section 4.1). -/
def validateEntry (p : String × String) : Option ValidationError :=
  if promptKeys.contains p.1 then
    if jsTrim p.2 = "" then some (.emptyValue p.1) else none
  else some (.unrecognizedKey p.1)

/-- First validation error among the supplied entries, if any. -/
def firstError : List (String × String) → Option ValidationError
  | [] => none
  | p :: rest =>
      match validateEntry p with
      | some e => some e
      | none => firstError rest

/-- Merge the supplied entries into a prompt set, left to right. -/
def applyUpdate (ps : PromptSet) (upd : List (String × String)) : PromptSet :=
  upd.foldl (fun acc p => setKey acc p.1 p.2) ps

/-- Modelled from the spec: `update(partial mapping) → PromptSet` of
spec section 4.1 — merge the supplied keys after validating every
entry, or fail with `ValidationError`. -/
def PromptSet.update (ps : PromptSet) (upd : List (String × String)) :
    Except ValidationError PromptSet :=
  match firstError upd with
  | some e => Except.error e
  | none => Except.ok (applyUpdate ps upd)

/-- The stored prompt set after an update attempt: the merged set on
success, the previous set when the update was rejected. -/
def storeAfterUpdate (ps : PromptSet) (upd : List (String × String)) : PromptSet :=
  match ps.update upd with
  | Except.ok ps' => ps'
  | Except.error _ => ps

/-- The last value supplied for a key in an update, if any
(later entries win, matching the left-to-right merge). -/
def lastSupplied (k : String) : List (String × String) → Option String
  | [] => none
  | p :: rest =>
      match lastSupplied k rest with
      | some v => some v
      | none => if p.1 = k then some p.2 else none

/-! ## Annotation pipeline summary (modelled from the spec) -/

/-- Modelled from the spec: the per-email outcome of one pipeline run —
the derived annotations, or a caught per-email failure
(spec section 4.3). -/
inductive EmailRunOutcome where
  | ok (category : String) (items : List ActionItem)
  | failed
deriving Repr, DecidableEq

/-- The `{attempted, succeeded}` summary the pipeline returns. -/
structure PipelineSummary where
  attempted : Nat
  succeeded : Nat
deriving Repr, DecidableEq

/-- Whether a per-email run succeeded. -/
def runSucceeded : EmailRunOutcome → Bool
  | .ok _ _ => true
  | .failed => false

/-- Modelled from the spec: the batch contract of spec section 4.3 —
a fold over the emails in which every email counts as attempted, each
per-email failure is caught and converted into a skip-and-count
outcome, and successes are tallied. -/
def runPipeline (batch : List (Email × EmailRunOutcome)) : PipelineSummary :=
  batch.foldl
    (fun acc p =>
      { attempted := acc.attempted + 1,
        succeeded := acc.succeeded + (if runSucceeded p.2 then 1 else 0) })
    { attempted := 0, succeeded := 0 }

/-! ## Concrete sample data -/

/-- A sample email, used to evaluate the definitions on concrete
input. -/
def sampleEmail : Email :=
  { id := 1, «from» := "alice@example.com", subject := "Team Sync",
    body := "Can we meet Thursday?", timestamp := "2024-01-01T09:00:00Z" }

/-- A sample annotated email with a free-text category tag. -/
def annotatedEmail : Email :=
  { id := 2, «from» := "boss@example.com", subject := "Urgent: Bug in Production",
    body := "Please fix today.", timestamp := "2024-01-02T08:00:00Z",
    category := some "Very Important",
    actionItems := some [{ task := "Fix the bug", deadline := some "today" }] }

/-- A sample app state: an email is selected, two chat turns were
exchanged, and a new question is typed into the chat input. -/
def sampleState : AppState :=
  { emails := [sampleEmail, annotatedEmail]
    selectedEmail := some sampleEmail
    prompts := [("categorize", "Categorize this email."), ("chat", "Answer about the email.")]
    chatMessages := [{ role := "user", content := "Summarize this email" },
                     { role := "assistant", content := "It asks to meet Thursday." }]
    chatInput := "What should I do?"
    drafts := []
    activeTab := "chat"
    loading := false
    editingPrompt := none
    status := { message := "", type := "" } }

/-- The sample state with a whitespace-only chat input. -/
def blankInputState : AppState :=
  { sampleState with chatInput := "   " }

/-- A sample prompt set for evaluating the prompt-store operations. -/
def samplePromptSet : PromptSet :=
  { categorize := "Categorize this email into Important, To-Do, Newsletter, or Spam."
    extractActions := "Extract action items as JSON."
    draftReply := "Draft a polite reply."
    chat := "Answer questions about the email." }

/-! ## Helper lemmas -/

/-- Writing key `j` changes the reading of key `k` exactly when the two
coincide on a recognized key. -/
theorem getKey_setKey (ps : PromptSet) (j v k : String) :
    getKey (setKey ps j v) k =
      if k = j ∧ promptKeys.contains j = true then some v else getKey ps k := by
  by_cases hjk : k = j
  · subst hjk
    by_cases h1 : k = "categorize" <;> by_cases h2 : k = "extractActions" <;>
      by_cases h3 : k = "draftReply" <;> by_cases h4 : k = "chat" <;>
      simp_all [getKey, setKey] <;> simp_all [promptKeys]
  · by_cases h1 : j = "categorize" <;> by_cases h2 : j = "extractActions" <;>
      by_cases h3 : j = "draftReply" <;> by_cases h4 : j = "chat" <;>
      simp_all [getKey, setKey]

/-- Validation passes exactly when every supplied entry has a
recognized key and a value non-empty after trimming. -/
theorem firstError_eq_none_iff (upd : List (String × String)) :
    firstError upd = none ↔
      ∀ p ∈ upd, p.1 ∈ promptKeys ∧ jsTrim p.2 ≠ "" := by
  induction upd with
  | nil => simp [firstError]
  | cons p rest ih =>
      by_cases h1 : p.1 ∈ promptKeys
      · by_cases h2 : jsTrim p.2 = "" <;>
          simp [firstError, validateEntry, h1, h2, ih]
      · simp [firstError, validateEntry, h1]

/-- Merging recognized entries reads back as the last supplied value,
with the prior value for keys the update does not touch. -/
theorem applyUpdate_getKey (upd : List (String × String)) (ps : PromptSet) (k : String)
    (hrec : ∀ p ∈ upd, p.1 ∈ promptKeys) :
    getKey (applyUpdate ps upd) k =
      match lastSupplied k upd with
      | some v => some v
      | none => getKey ps k := by
  induction upd generalizing ps with
  | nil => simp [applyUpdate, lastSupplied]
  | cons p rest ih =>
      have hp : p.1 ∈ promptKeys := hrec p (List.mem_cons_self p rest)
      have hrest : ∀ q ∈ rest, q.1 ∈ promptKeys := fun q hq => hrec q (List.mem_cons_of_mem p hq)
      show getKey (applyUpdate (setKey ps p.1 p.2) rest) k = _
      rw [ih (setKey ps p.1 p.2) hrest]
      cases hl : lastSupplied k rest with
      | some v => simp [lastSupplied, hl]
      | none =>
          simp only [lastSupplied, hl]
          rw [getKey_setKey]
          by_cases hk : k = p.1
          · simp [hk, hp]
          · have hk' : ¬(p.1 = k) := fun h => hk h.symm
            simp [hk, hk']

/-- The pipeline fold counts one attempt per email and one success per
succeeded email, on top of any starting accumulator. -/
theorem runPipeline_foldl (batch : List (Email × EmailRunOutcome)) (acc : PipelineSummary) :
    batch.foldl
        (fun acc p =>
          { attempted := acc.attempted + 1,
            succeeded := acc.succeeded + (if runSucceeded p.2 then 1 else 0) }) acc =
      { attempted := acc.attempted + batch.length,
        succeeded := acc.succeeded + (batch.filter fun p => runSucceeded p.2).length } := by
  induction batch generalizing acc with
  | nil => simp
  | cons p rest ih =>
      rw [List.foldl_cons, ih]
      cases h : runSucceeded p.2 <;>
        simp [List.filter_cons, h, PipelineSummary.mk.injEq] <;> omega

/-! ## Claim theorems -/

/-- Claim C1: no operation of the system transmits an email — no
request constructible through the API client invokes the
email-transmission capability, and every draft-related request any
handler can emit, from any state, is a draft generation, listing, or
deletion. -/
theorem no_send_operation_exists :
    (∀ r : ApiRequest, capability r ≠ Capability.transmitEmail) ∧
    (∀ (s : AppState) (ev : Event) (r : ApiRequest), r ∈ (step s ev).2 →
      isDraftEndpoint r = true →
        capability r = Capability.generateDraft ∨ capability r = Capability.listDrafts ∨
          capability r = Capability.deleteDraft) := by
  constructor
  · intro r
    cases r <;> simp [capability]
  · intro s ev r _ hd
    cases r with
    | generateDraft e => exact Or.inl rfl
    | getDrafts => exact Or.inr (Or.inl rfl)
    | deleteDraft i => exact Or.inr (Or.inr rfl)
    | loadMockEmails => exact Bool.noConfusion hd
    | fetchEmails n => exact Bool.noConfusion hd
    | processEmails => exact Bool.noConfusion hd
    | getEmails => exact Bool.noConfusion hd
    | chatWithAgent e q h => exact Bool.noConfusion hd
    | getPrompts => exact Bool.noConfusion hd
    | updatePrompts ps => exact Bool.noConfusion hd

/-- Claim C1 witness: the delete button of the Drafts tab emits a
draft-related request, and it is classified as a deletion. -/
theorem no_send_operation_exists_witness :
    capability (ApiRequest.deleteDraft 3) = Capability.generateDraft ∨
    capability (ApiRequest.deleteDraft 3) = Capability.listDrafts ∨
    capability (ApiRequest.deleteDraft 3) = Capability.deleteDraft :=
  no_send_operation_exists.2 sampleState (Event.deleteDraftClick 3 [])
    (ApiRequest.deleteDraft 3) (by decide) rfl

/-- Claim C2: a chat submission with a selected email and non-blank
input sends exactly one request to the chat endpoint; its history field
is the prior transcript flattened one line per turn as
`role: content` joined by newlines, and the new user query travels in
the separate query field, not inside the history string. -/
theorem chat_request_carries_flattened_history (s : AppState) (e : Email)
    (outcome : ChatOutcome) (hsel : s.selectedEmail = some e)
    (hne : jsTrim s.chatInput ≠ "") :
    (step s (.chatSubmit outcome)).2 =
      [ApiRequest.chatWithAgent e s.chatInput
        (String.intercalate "\n" (s.chatMessages.map fun m => m.role ++ ": " ++ m.content))] := by
  cases outcome <;> simp [step, hsel, hne, flattenHistory]

/-- Claim C2 witness: evaluated at the sample state. -/
theorem chat_request_carries_flattened_history_witness :
    (step sampleState (.chatSubmit (ChatOutcome.ok "Reply saying yes."))).2 =
      [ApiRequest.chatWithAgent sampleEmail sampleState.chatInput
        (String.intercalate "\n"
          (sampleState.chatMessages.map fun m => m.role ++ ": " ++ m.content))] :=
  chat_request_carries_flattened_history sampleState sampleEmail
    (ChatOutcome.ok "Reply saying yes.") rfl (by decide)

/-- Claim C3: when the chat call rejects (timeouts included), the
handler appends the user turn and an assistant turn holding the one
fixed fallback string; the prior transcript and the user turn are
preserved, and the handler returns a state rather than propagating an
error (the step function is total). -/
theorem chat_failure_appends_fixed_fallback (s : AppState) (e : Email)
    (hsel : s.selectedEmail = some e) (hne : jsTrim s.chatInput ≠ "") :
    (step s (.chatSubmit .err)).1.chatMessages =
      s.chatMessages ++
        [{ role := "user", content := s.chatInput },
         { role := "assistant",
           content := "Sorry, I encountered an error processing your request." }] := by
  simp [step, hsel, hne, chatFallback]

/-- Claim C3 witness: evaluated at the sample state. -/
theorem chat_failure_appends_fixed_fallback_witness :
    (step sampleState (.chatSubmit .err)).1.chatMessages =
      sampleState.chatMessages ++
        [{ role := "user", content := sampleState.chatInput },
         { role := "assistant",
           content := "Sorry, I encountered an error processing your request." }] :=
  chat_failure_appends_fixed_fallback sampleState sampleEmail rfl (by decide)

/-- Claim C4: a present, non-empty category string is displayed
verbatim in the inbox badge, and the badge's visual bucket agrees with
the ordered, case-insensitive first-match rules important, to-do/todo,
newsletter, spam, with `other` as the fallback. -/
theorem category_badge_verbatim_and_bucketed (e : Email) (c : String)
    (hc : e.category = some c) (hne : c ≠ "") :
    categoryBadge e = some (c, categoryBucket c) ∧
    categoryBucket c = categoryBucketSpec c := by
  constructor
  · simp [categoryBadge, hc, hne]
  · cases h1 : jsIncludes (jsToLower c) "important" <;>
      cases h2 : jsIncludes (jsToLower c) "to-do" <;>
      cases h3 : jsIncludes (jsToLower c) "todo" <;>
      cases h4 : jsIncludes (jsToLower c) "newsletter" <;>
      cases h5 : jsIncludes (jsToLower c) "spam" <;>
      simp [categoryBucket, categoryBucketSpec, bucketRules, List.find?, h1, h2, h3, h4, h5]

/-- Claim C4 witness: the free-text tag "Very Important" is shown
verbatim and bucketed by the substring rule. -/
theorem category_badge_verbatim_and_bucketed_witness :
    categoryBadge annotatedEmail = some ("Very Important", categoryBucket "Very Important") ∧
    categoryBucket "Very Important" = categoryBucketSpec "Very Important" :=
  category_badge_verbatim_and_bucketed annotatedEmail "Very Important" rfl (by decide)

/-- Claim C5: the pipeline summary counts every email of the batch as
attempted and the successfully annotated ones as succeeded, succeeded
never exceeds attempted, and the UI reports both counts in a success
status — also when some emails failed.  (The pipeline itself is
modelled from the spec, the reporting is `processAllEmails` of
`App.jsx`.) -/
theorem pipeline_summary_counts_reported (batch : List (Email × EmailRunOutcome))
    (s : AppState) (refreshed : List Email) :
    (runPipeline batch).attempted = batch.length ∧
    (runPipeline batch).succeeded = (batch.filter fun p => runSucceeded p.2).length ∧
    (runPipeline batch).succeeded ≤ (runPipeline batch).attempted ∧
    (step s (.processAll (.ok (runPipeline batch).succeeded (runPipeline batch).attempted
        refreshed))).1.status =
      mkStatus ("✅ Processed " ++ toString (runPipeline batch).succeeded ++ "/" ++
          toString (runPipeline batch).attempted ++ " emails successfully!") "success" := by
  have h := runPipeline_foldl batch { attempted := 0, succeeded := 0 }
  have h1 : (runPipeline batch).attempted = batch.length := by
    simp [runPipeline, h]
  have h2 : (runPipeline batch).succeeded = (batch.filter fun p => runSucceeded p.2).length := by
    simp [runPipeline, h]
  refine ⟨h1, h2, ?_, ?_⟩
  · rw [h1, h2]
    exact List.length_filter_le _ _
  · simp [step]

/-- Claim C6: a prompt update merges supplied keys (last value wins)
and leaves unsupplied keys untouched; it fails with a
`ValidationError` exactly when some supplied key is unrecognized or
has a value empty after trimming, and a failed update leaves the
stored set unchanged. -/
theorem prompt_update_contract (ps : PromptSet) (upd : List (String × String)) :
    ((∃ er, ps.update upd = Except.error er) ↔
      ∃ p ∈ upd, p.1 ∉ promptKeys ∨ jsTrim p.2 = "") ∧
    ((∃ er, ps.update upd = Except.error er) → storeAfterUpdate ps upd = ps) ∧
    (∀ ps', ps.update upd = Except.ok ps' →
      ∀ k, lastSupplied k upd = none → getKey ps' k = getKey ps k) ∧
    (∀ ps', ps.update upd = Except.ok ps' →
      ∀ k v, lastSupplied k upd = some v → getKey ps' k = some v) := by
  have herr : (∃ er, ps.update upd = Except.error er) ↔ ¬(firstError upd = none) := by
    cases h : firstError upd <;> simp [PromptSet.update, h]
  refine ⟨?_, ?_, ?_, ?_⟩
  · rw [herr, firstError_eq_none_iff]
    push_neg
    constructor
    · rintro ⟨p, hp, hcase⟩
      exact ⟨p, hp, by tauto⟩
    · rintro ⟨p, hp, hcase⟩
      refine ⟨p, hp, ?_⟩
      intro hmem
      rcases hcase with h | h
      · exact absurd hmem h
      · exact h
  · rintro ⟨er, her⟩
    simp [storeAfterUpdate, her]
  · intro ps' hok k hnone
    have hfe : firstError upd = none := by
      cases h : firstError upd with
      | none => rfl
      | some e => simp [PromptSet.update, h] at hok
    have hps' : ps' = applyUpdate ps upd := by
      simp [PromptSet.update, hfe] at hok
      exact hok.symm
    have hrec : ∀ p ∈ upd, p.1 ∈ promptKeys :=
      fun p hp => ((firstError_eq_none_iff upd).mp hfe p hp).1
    rw [hps', applyUpdate_getKey upd ps k hrec, hnone]
  · intro ps' hok k v hv
    have hfe : firstError upd = none := by
      cases h : firstError upd with
      | none => rfl
      | some e => simp [PromptSet.update, h] at hok
    have hps' : ps' = applyUpdate ps upd := by
      simp [PromptSet.update, hfe] at hok
      exact hok.symm
    have hrec : ∀ p ∈ upd, p.1 ∈ promptKeys :=
      fun p hp => ((firstError_eq_none_iff upd).mp hfe p hp).1
    rw [hps', applyUpdate_getKey upd ps k hrec, hv]

/-- Claim C6 witness: updating only the chat prompt leaves the
categorize prompt untouched. -/
theorem prompt_update_contract_witness :
    getKey (applyUpdate samplePromptSet [("chat", "Answer briefly.")]) "categorize" =
      getKey samplePromptSet "categorize" :=
  (prompt_update_contract samplePromptSet [("chat", "Answer briefly.")]).2.2.1
    (applyUpdate samplePromptSet [("chat", "Answer briefly.")]) rfl "categorize" rfl

/-- Claim C7: every request issued through the API client carries the
instance's explicit 60000 ms timeout, and the response interceptor
hands every rejection — a timeout (code ECONNABORTED) included — back
to the caller as `Promise.reject(error)`, logging the timeout case
distinctly. -/
theorem client_timeout_and_timeout_rejection (isDevelopment : Bool)
    (viteApiUrl : Option String) (r : ApiRequest) (e : ApiError) :
    (requestConfigOf isDevelopment viteApiUrl r).timeout = 60000 ∧
    (responseErrorInterceptor e).2 = Except.error e ∧
    ((responseErrorInterceptor e).1 =
        ["API Error: " ++ e.message, "Request timeout - backend may be processing"] ↔
      e.code = some "ECONNABORTED") := by
  refine ⟨rfl, rfl, ?_⟩
  by_cases h : e.code = some "ECONNABORTED" <;> simp [responseErrorInterceptor, h]

/-- Claim C8: on a successful chat call the assistant turn appended to
the transcript carries the response text unmodified. -/
theorem chat_success_appends_response_verbatim (s : AppState) (e : Email) (text : String)
    (hsel : s.selectedEmail = some e) (hne : jsTrim s.chatInput ≠ "") :
    (step s (.chatSubmit (.ok text))).1.chatMessages =
      s.chatMessages ++
        [{ role := "user", content := s.chatInput },
         { role := "assistant", content := text }] := by
  simp [step, hsel, hne]

/-- Claim C8 witness: evaluated at the sample state with a concrete
response text carrying leading/trailing whitespace, preserved as is. -/
theorem chat_success_appends_response_verbatim_witness :
    (step sampleState (.chatSubmit (.ok "  Reply with availability.  "))).1.chatMessages =
      sampleState.chatMessages ++
        [{ role := "user", content := sampleState.chatInput },
         { role := "assistant", content := "  Reply with availability.  " }] :=
  chat_success_appends_response_verbatim sampleState sampleEmail
    "  Reply with availability.  " rfl (by decide)

/-- Claim C9: clicking an inbox email always selects it and resets the
chat transcript to empty — also when it is already selected — and the
step after a selection does not depend on the transcript held before
it, so a transcript never spans two selections. -/
theorem select_email_resets_transcript (s : AppState) (e : Email) (ms : List ChatMessage) :
    (step s (.selectEmail e)).1.selectedEmail = some e ∧
    (step s (.selectEmail e)).1.chatMessages = [] ∧
    step s (.selectEmail e) = step { s with chatMessages := ms } (.selectEmail e) :=
  ⟨rfl, rfl, rfl⟩

/-- Claim C10: with a blank (whitespace-only) chat input or no selected
email, submitting the chat issues no request and leaves the state —
transcript, input, loading flag and all — unchanged; a blank input also
disables the Send button. -/
theorem blank_chat_submit_is_noop (s : AppState) (outcome : ChatOutcome)
    (h : jsTrim s.chatInput = "" ∨ s.selectedEmail = none) :
    step s (.chatSubmit outcome) = (s, []) ∧
    (jsTrim s.chatInput = "" → sendButtonDisabled s = true) := by
  constructor
  · rcases h with h | h
    · simp [step, h]
    · by_cases h2 : jsTrim s.chatInput = ""
      · simp [step, h2]
      · simp [step, h2, h]
  · intro h2
    simp [sendButtonDisabled, h2]

/-- Claim C10 witness: evaluated at the sample state with a
whitespace-only input. -/
theorem blank_chat_submit_is_noop_witness :
    step blankInputState (.chatSubmit ChatOutcome.err) = (blankInputState, []) ∧
    (jsTrim blankInputState.chatInput = "" → sendButtonDisabled blankInputState = true) :=
  blank_chat_submit_is_noop blankInputState ChatOutcome.err (Or.inl (by decide))

end EmailAgent
